import Mathlib

/-!
Verification of the tap-coosto extraction client (src/tap_coosto/coosto.py and
src/tap_coosto/tap.py) against its design specification.

The Python code is shallowly embedded as executable Lean definitions:

* JSON bodies delivered by the remote API become the inductive type JVal;
  Python dictionary access (dict.get) becomes dictGet, with Option modelling
  the Python None that dict.get returns for an absent key.
* Fallible Python operations return Except PyErr; the PyErr constructors
  mirror the exception classes the interpreter or httpx would raise.
* The network is an oracle: each HTTP response (status plus parsed JSON body)
  is an input to the corresponding operation, and the wall clock observed by
  the code is threaded through explicit rational-valued time stamps supplied
  by the environment (one fetch-issue time and one datetime.now observation
  per day window).  Timezone-dependent epoch rendering (strftime with the
  percent-s directive) is modelled in UTC, so the epoch of a civil date is
  its day number times 86400.
* The generator structure of Coosto.intervention_details is modelled as an
  event trace (pause calls, issued requests, yielded records, a raised
  exception) together with an observation function implementing the lazy
  resume-on-demand semantics of Python generators.
-/

namespace TapCoosto

/-- JSON values as parsed from a response body by response.json(). -/
inductive JVal where
  | null
  | bool (b : Bool)
  | num (n : Int)
  | str (s : String)
  | arr (elems : List JVal)
  | obj (fields : List (String × JVal))

/-- Python exceptions reachable from the embedded code paths:
ValueError, TypeError, AttributeError, IndexError, ZeroDivisionError,
the httpx.HTTPStatusError raised by raise_for_status, and the exception
singer.utils.parse_args raises for a missing required config key. -/
inductive PyErr where
  | valueError (msg : String)
  | typeError (msg : String)
  | attributeError (msg : String)
  | indexError
  | zeroDivisionError
  | httpStatusError (status : Nat)
  | configError (msg : String)
deriving DecidableEq

/-- Python dict.get with no default: the first binding of the key, or none
(Python None) when the key is absent. -/
def dictGet (fields : List (String × JVal)) (k : String) : Option JVal :=
  (fields.find? (fun p => p.1 == k)).map (fun p => p.2)

/-- Python truthiness of a value possibly absent from a dict lookup:
None, False, 0, the empty string, the empty list and the empty dict are
falsy, everything else is truthy. -/
def truthy : Option JVal → Bool
  | none => false
  | some JVal.null => false
  | some (JVal.bool b) => b
  | some (JVal.num n) => n != 0
  | some (JVal.str s) => !s.isEmpty
  | some (JVal.arr elems) => !elems.isEmpty
  | some (JVal.obj fields) => !fields.isEmpty

/-- Python iteration over the result of a dict.get: iterating None raises a
TypeError, a list yields its elements, a string its characters, a dict its
keys; the remaining scalars are not iterable. -/
def pyIter : Option JVal → Except PyErr (List JVal)
  | none => .error (.typeError "NoneType object is not iterable")
  | some (JVal.arr elems) => .ok elems
  | some (JVal.str s) => .ok (s.toList.map (fun c => JVal.str (String.singleton c)))
  | some (JVal.obj fields) => .ok (fields.map (fun p => JVal.str p.1))
  | some _ => .error (.typeError "object is not iterable")

/-- An HTTP response as seen by the client: status code and parsed JSON body. -/
structure HttpResponse where
  status : Nat
  body : JVal

/-- httpx Response.raise_for_status in the version pinned by this repository,
matching the comment in coosto.py line 96: raise on 4xx and 5xx statuses. -/
def raise_for_status (status : Nat) : Except PyErr Unit :=
  if 400 ≤ status then .error (.httpStatusError status) else .ok ()

/-- x.get(k) where x is the parsed JSON body: AttributeError when the body is
not a dict (non-dict values have no get method). -/
def jsonGet (body : JVal) (k : String) : Except PyErr (Option JVal) :=
  match body with
  | .obj fields => .ok (dictGet fields k)
  | _ => .error (.attributeError "get")

/-- x.get(k, dflt) on the parsed JSON body, with a default for an absent key. -/
def jsonGetD (body : JVal) (k : String) (dflt : JVal) : Except PyErr JVal :=
  match body with
  | .obj fields => .ok ((dictGet fields k).getD dflt)
  | _ => .error (.attributeError "get")

/-- Coosto._login (coosto.py lines 108-124): POST the credentials, raise for
an error status, then store the cookie dict entry
sessionid := response.json().get('data', curly-empty).get('sessionid').
The returned value is the stored sessionid cookie value; none models a
stored Python None when the token is absent from the body. -/
def login (resp : HttpResponse) : Except PyErr (Option JVal) :=
  match raise_for_status resp.status with
  | .error e => .error e
  | .ok _ =>
    match jsonGetD resp.body "data" (JVal.obj []) with
    | .error e => .error e
    | .ok (JVal.obj fields) => .ok (dictGet fields "sessionid")
    | .ok _ => .error (.attributeError "get")

/-- Coosto.rate_limit (coosto.py lines 153-164): GET the rate-limit status,
raise for an error status, return response.json().get('data'). -/
def rate_limit (resp : HttpResponse) : Except PyErr (Option JVal) :=
  match raise_for_status resp.status with
  | .error e => .error e
  | .ok _ => jsonGet resp.body "data"

/-- Coosto.set_rate_limit (coosto.py lines 166-172): when
rate_dict.get('enabled') is falsy the method returns early and the
max_requests attribute is never assigned (outer none); otherwise the
attribute is set to rate_dict.get('max_requests') (inner Option is the
stored Python value, none for a stored None). -/
def set_rate_limit (resp : HttpResponse) : Except PyErr (Option (Option JVal)) :=
  match rate_limit resp with
  | .error e => .error e
  | .ok none => .error (.attributeError "get")
  | .ok (some (JVal.obj fields)) =>
      if truthy (dictGet fields "enabled") then .ok (some (dictGet fields "max_requests"))
      else .ok none
  | .ok (some _) => .error (.attributeError "get")

/-- The expression 60 / self.max_requests (coosto.py line 92): AttributeError
when the attribute was never assigned, TypeError when it holds a non-numeric
value, ZeroDivisionError for 0, otherwise the exact rational quotient
(Python bools divide as the integers 0 and 1). -/
def sixtyDiv (maxRequests : Option (Option JVal)) : Except PyErr ℚ :=
  match maxRequests with
  | none => .error (.attributeError "max_requests")
  | some none => .error (.typeError "unsupported operand type for division")
  | some (some (JVal.num n)) =>
      if n = 0 then .error .zeroDivisionError else .ok (60 / (n : ℚ))
  | some (some (JVal.bool b)) =>
      if b then .ok 60 else .error .zeroDivisionError
  | some (some _) => .error (.typeError "unsupported operand type for division")

/-- Digits-only numeral parse: the digit string value, or none when the list
is empty or contains a non-digit. -/
def parseDigits : List Char → Option Nat
  | [] => none
  | cs =>
    cs.foldl
      (fun acc c =>
        match acc with
        | none => none
        | some n => if c.isDigit then some (n * 10 + (c.toNat - 48)) else none)
      (some 0)

/-- Python int(s) for the substrings produced by splitting on a dash:
surrounding whitespace is stripped, then the digits are parsed (a dash can
never reach this point because it is the split separator, so signed forms
do not occur). -/
def pyInt (s : String) : Except PyErr Int :=
  let cs := ((s.toList.dropWhile Char.isWhitespace).reverse.dropWhile
    Char.isWhitespace).reverse
  match parseDigits cs with
  | some n => .ok (n : Int)
  | none => .error (.valueError "invalid literal for int")

/-- Accumulator pass of Python str.split on a dash separator. -/
def splitDashAux : List Char → List Char → List String
  | [], acc => [String.mk acc.reverse]
  | c :: rest, acc =>
    if c = '-' then String.mk acc.reverse :: splitDashAux rest []
    else splitDashAux rest (c :: acc)

/-- Python s.split applied with the dash separator, as used on the start
date string (coosto.py lines 136-138). -/
def splitDash (s : String) : List String :=
  splitDashAux s.toList []

/-- Python list indexing xs[i]: IndexError when out of range. -/
def pyIndex (xs : List String) (i : Nat) : Except PyErr String :=
  match xs.get? i with
  | some v => .ok v
  | none => .error .indexError

/-- Leap-year test of the proleptic Gregorian calendar used by
datetime.date. -/
def isLeapYear (y : Int) : Bool :=
  (y % 4 == 0 && y % 100 != 0) || y % 400 == 0

/-- Number of days in a month of the Gregorian calendar. -/
def daysInMonth (y m : Int) : Int :=
  if m == 2 then (if isLeapYear y then 29 else 28)
  else if m == 4 || m == 6 || m == 9 || m == 11 then 30
  else 31

/-- Validity check performed by the datetime.date constructor
(coosto.py line 141): a ValueError is raised outside these bounds. -/
def dateValid (y m d : Int) : Bool :=
  decide (1 ≤ y) && decide (y ≤ 9999) && decide (1 ≤ m) && decide (m ≤ 12)
    && decide (1 ≤ d) && decide (d ≤ daysInMonth y m)

/-- Day number (days since 1970-01-01) of a Gregorian civil date; the
standard civil-from-days inverse, evaluated here only on the years the
date constructor admits, where every division operand is non-negative. -/
def daysFromCivil (y m d : Int) : Int :=
  let yAdj := if m ≤ 2 then y - 1 else y
  let era := yAdj / 400
  let yoe := yAdj - era * 400
  let mp := (m + 9) % 12
  let doy := (153 * mp + 2) / 5 + d - 1
  let doe := yoe * 365 + yoe / 4 - yoe / 100 + doy
  era * 146097 + doe - 719468

/-- Parsing of the start date string (coosto.py lines 135-138):
year = int(parts[0]), month = int(parts[1].lstrip()),
day = int(parts[2].lstrip()) after splitting on the dash. -/
def parseStartDate (start_date : String) : Except PyErr (Int × Int × Int) :=
  let parts := splitDash start_date
  match pyIndex parts 0 with
  | .error e => .error e
  | .ok p0 =>
    match pyInt p0 with
    | .error e => .error e
    | .ok year =>
      match pyIndex parts 1 with
      | .error e => .error e
      | .ok p1 =>
        match pyInt p1 with
        | .error e => .error e
        | .ok month =>
          match pyIndex parts 2 with
          | .error e => .error e
          | .ok p2 =>
            match pyInt p2 with
            | .error e => .error e
            | .ok day => .ok (year, month, day)

/-- Coosto._start_days_till_now (coosto.py lines 126-151), modelled in UTC:
parse the start date, build the date, then enumerate the daily rrule
occurrences from that midnight through now, rendering each as its epoch
value.  nowDays is the day number of the current moment; an occurrence at
the midnight of day d0 + k is included exactly when d0 + k is at most
nowDays, so the enumeration is the day numbers d0 .. nowDays, each times
86400.  The source yields each epoch as a decimal string which
intervention_details immediately parses back with int; that identity
round-trip is elided and the epochs are kept as integers. -/
def start_days_till_now (start_date : String) (nowDays : Int) :
    Except PyErr (List Int) :=
  match parseStartDate start_date with
  | .error e => .error e
  | .ok (year, month, day) =>
    if dateValid year month day then
      let d0 := daysFromCivil year month day
      if d0 ≤ nowDays then
        .ok ((List.range (nowDays - d0 + 1).toNat).map
          (fun (k : Nat) => (d0 + (k : Int)) * 86400))
      else .ok []
    else .error (.valueError "day is out of range for month")

/-- The day window built from one enumerated epoch
(coosto.py line 64: end_of_day = int(date_day) + 86400). -/
def dayWindow (e : Int) : Int × Int :=
  (e, e + 86400)

/-- Result of the registry lookup CLEANERS.get('intervention_details',
curly-empty) (coosto.py line 60): either the registered cleaning function or
the empty-dict default.  The CLEANERS mapping itself lives in
tap_coosto/cleaners.py, which is not among the source files; it is kept
abstract as an association list of record transforms, which suffices because
every claim about it concerns only the miss case decided here. -/
inductive CleanerLookup where
  | fn (f : JVal → JVal)
  | emptyDict

/-- The dict.get lookup on the cleaner registry with the empty-dict default. -/
def cleanersGet (cleaners : List (String × (JVal → JVal))) (k : String) :
    CleanerLookup :=
  match cleaners.find? (fun p => p.1 == k) with
  | some p => .fn p.2
  | none => .emptyDict

/-- The generator expression cleaner(row) for row in rows (coosto.py lines
103-106): applying a function maps it over the rows; applying the empty-dict
default raises a TypeError at the first row, before anything is yielded, so
only an empty day survives a registry miss. -/
def cleanRows (cleaner : CleanerLookup) (rows : List JVal) :
    Except PyErr (List JVal) :=
  match cleaner, rows with
  | _, [] => .ok []
  | .fn f, rs => .ok (rs.map f)
  | .emptyDict, _ => .error (.typeError "dict object is not callable")

/-- Environment of one day-window iteration: the wall-clock instant at which
the GET request is issued (after any pause), the datetime.now() observation
taken right after the response arrives (coosto.py line 94), and the response
itself. -/
structure DayEnv where
  tFetch : ℚ
  tNow : ℚ
  status : Nat
  body : JVal

/-- Record of one day-window iteration: the pause target if pause.until was
called, the observed times, the next_request value after the iteration, and
the iteration outcome (the cleaned records, or the exception that ends the
generator). -/
structure DayLog where
  day : Int
  paused : Option ℚ
  tFetch : ℚ
  tNow : ℚ
  nextReqAfter : Option ℚ
  outcome : Except PyErr (List JVal)

/-- One iteration of the day loop of Coosto.intervention_details
(coosto.py lines 62-106): pause when next_request is set (datetime values
are always truthy), issue the GET, recompute next_request as
datetime.now() + 60 / self.max_requests before the status is inspected,
then raise for an error status, and finally iterate
response.json().get('data') through the cleaner. -/
def stepDay (maxRequests : Option (Option JVal)) (cleaner : CleanerLookup)
    (nextRequest : Option ℚ) (day : Int) (env : DayEnv) : DayLog :=
  match sixtyDiv maxRequests with
  | .error e =>
      { day := day, paused := nextRequest, tFetch := env.tFetch,
        tNow := env.tNow, nextReqAfter := nextRequest, outcome := .error e }
  | .ok gap =>
      if 400 ≤ env.status then
        { day := day, paused := nextRequest, tFetch := env.tFetch,
          tNow := env.tNow, nextReqAfter := some (env.tNow + gap),
          outcome := .error (.httpStatusError env.status) }
      else
        { day := day, paused := nextRequest, tFetch := env.tFetch,
          tNow := env.tNow, nextReqAfter := some (env.tNow + gap),
          outcome :=
            match jsonGet env.body "data" with
            | .error e => .error e
            | .ok rows =>
              match pyIter rows with
              | .error e => .error e
              | .ok rs => cleanRows cleaner rs }

/-- The day loop: one stepDay per enumerated day, threading next_request;
an exception ends the run after the iteration that raised it. -/
def runDays (maxRequests : Option (Option JVal)) (cleaner : CleanerLookup) :
    Option ℚ → List (Int × DayEnv) → List DayLog
  | _, [] => []
  | nextRequest, (day, env) :: rest =>
    let log := stepDay maxRequests cleaner nextRequest day env
    match log.outcome with
    | .error _ => [log]
    | .ok _ => log :: runDays maxRequests cleaner log.nextReqAfter rest

/-- The day loop started from the initial next_request = None set in
Coosto.__init__ (coosto.py line 42). -/
def interventionLogs (maxRequests : Option (Option JVal))
    (cleaner : CleanerLookup) (items : List (Int × DayEnv)) : List DayLog :=
  runDays maxRequests cleaner none items

/-- Observable events of a run: the two construction-time requests, a
pause.until call, a day-window GET request issued at a given instant, a
yielded cleaned record, and a raised exception. -/
inductive Event where
  | loginRequest
  | rateLimitRequest
  | pauseCall (t : ℚ)
  | request (day : Int) (t : ℚ)
  | yielded (v : JVal)
  | raised (e : PyErr)

/-- The events of one day-window iteration, in program order: the optional
pause, the issued request, then either the yielded records or the raised
exception. -/
def dayEvents (l : DayLog) : List Event :=
  (match l.paused with
   | some t => [Event.pauseCall t]
   | none => []) ++
  Event.request l.day l.tFetch ::
  (match l.outcome with
   | .ok rows => rows.map Event.yielded
   | .error e => [Event.raised e])

/-- The full event trace of the generator body of
Coosto.intervention_details (coosto.py lines 44-106): validate the
start_date keyword (str of the configured value, defaulting to the empty
string, must be truthy), look up the cleaner, enumerate the day windows and
run the day loop.  The trace lists the events in the order the fully driven
generator would produce them; lazy consumption is expressed by observe. -/
def interventionDetailsTrace (startDateArg : Option String)
    (maxRequests : Option (Option JVal))
    (cleaners : List (String × (JVal → JVal)))
    (nowDays : Int) (envs : Nat → DayEnv) : List Event :=
  let start_date_input := startDateArg.getD ""
  if start_date_input = "" then
    [Event.raised (PyErr.valueError "The parameter start_date is required.")]
  else
    let cleaner := cleanersGet cleaners "intervention_details"
    match start_days_till_now start_date_input nowDays with
    | .error e => [Event.raised e]
    | .ok days =>
      ((runDays maxRequests cleaner none
        (days.enum.map (fun p => (p.2, envs p.1)))).map dayEvents).flatten

/-- Python generator consumption semantics: observe k tr is the prefix of
the trace produced when the caller requests up to k elements.  Calling the
generator function runs nothing (k = 0 observes no events); each next()
resumes the body, which runs up to and including its next yield, or up to a
raised exception that ends the iteration. -/
def observe : Nat → List Event → List Event
  | 0, _ => []
  | _ + 1, [] => []
  | n + 1, Event.yielded v :: rest => Event.yielded v :: observe n rest
  | n + 1, e :: rest => e :: observe (n + 1) rest

/-- Network requests among the events of a trace. -/
def isRequestEvent : Event → Bool
  | Event.loginRequest => true
  | Event.rateLimitRequest => true
  | Event.request _ _ => true
  | _ => false

/-- Number of network requests issued in a trace. -/
def countRequests (tr : List Event) : Nat :=
  (tr.filter isRequestEvent).length

/-- The required config keys of tap.py (lines 16-20). -/
def REQUIRED_CONFIG_KEYS : List String :=
  ["username", "password", "start_date"]

/-- Lookup in the parsed JSON config mapping. -/
def configGet (config : List (String × String)) (k : String) : Option String :=
  (config.find? (fun p => p.1 == k)).map (fun p => p.2)

/-- singer.utils.parse_args with REQUIRED_CONFIG_KEYS (tap.py line 27): the
external singer library raises before anything else runs when a required
config key is missing. -/
def parse_args (config : List (String × String)) : Except PyErr Unit :=
  if REQUIRED_CONFIG_KEYS.all (fun k => (configGet config k).isSome) then .ok ()
  else .error (.configError "Config is missing required keys")

/-- tap.main in sync mode (tap.py lines 24-51): parse the arguments, build
the Coosto client (whose constructor issues the login request and the
rate-limit request, coosto.py lines 28-42), then run sync.  Modelled from
the spec: sync.py is not among the source files; per the spec the sync
collaborator drives the date-windowed producer with the configured
start_date and consumes its records one at a time, so its contribution to
the trace is exactly the producer trace. -/
def tapRun (config : List (String × String))
    (loginResp rateResp : HttpResponse)
    (cleaners : List (String × (JVal → JVal)))
    (nowDays : Int) (envs : Nat → DayEnv) : List Event :=
  match parse_args config with
  | .error e => [Event.raised e]
  | .ok _ =>
    Event.loginRequest ::
      match login loginResp with
      | .error e => [Event.raised e]
      | .ok _ =>
        Event.rateLimitRequest ::
          match set_rate_limit rateResp with
          | .error e => [Event.raised e]
          | .ok maxRequests =>
            interventionDetailsTrace (configGet config "start_date")
              maxRequests cleaners nowDays envs

/-- Environment assumption for one day iteration: pause.until blocks until
its target instant, so the request is issued no earlier than the recorded
target, and the response is observed no earlier than the request was
issued. -/
def WellTimedLog (l : DayLog) : Prop :=
  (∀ t ∈ l.paused, t ≤ l.tFetch) ∧ l.tFetch ≤ l.tNow

/-- Environment assumption for a run: every iteration is well timed and the
single-threaded clock never goes backwards between consecutive iterations
(the now observed after one response precedes the next fetch). -/
def WellTimedSeq : List DayLog → Prop
  | [] => True
  | [l] => WellTimedLog l
  | a :: b :: rest => WellTimedLog a ∧ a.tNow ≤ b.tFetch ∧ WellTimedSeq (b :: rest)

/-- Calling a generator function runs none of its body. -/
theorem observe_zero (tr : List Event) : observe 0 tr = [] := by
  cases tr <;> rfl

/-- Every branch of a day iteration records the pause target it started
from. -/
theorem stepDay_paused (M : Option (Option JVal)) (c : CleanerLookup)
    (nr : Option ℚ) (day : Int) (env : DayEnv) :
    (stepDay M c nr day env).paused = nr := by
  unfold stepDay
  split
  · rfl
  · split <;> rfl

/-- Every branch of a day iteration records the fetch instant supplied by
the environment. -/
theorem stepDay_tFetch (M : Option (Option JVal)) (c : CleanerLookup)
    (nr : Option ℚ) (day : Int) (env : DayEnv) :
    (stepDay M c nr day env).tFetch = env.tFetch := by
  unfold stepDay
  split
  · rfl
  · split <;> rfl

/-- Every branch of a day iteration records the now observation supplied by
the environment. -/
theorem stepDay_tNow (M : Option (Option JVal)) (c : CleanerLookup)
    (nr : Option ℚ) (day : Int) (env : DayEnv) :
    (stepDay M c nr day env).tNow = env.tNow := by
  unfold stepDay
  split
  · rfl
  · split <;> rfl

/-- With max_requests set to a non-zero integer, every day iteration ends
with next_request = now + 60 / max_requests, whatever the response status. -/
theorem stepDay_nextReqAfter_num {N : Int} (hN : N ≠ 0) (c : CleanerLookup)
    (nr : Option ℚ) (day : Int) (env : DayEnv) :
    (stepDay (some (some (JVal.num N))) c nr day env).nextReqAfter
      = some (env.tNow + 60 / (N : ℚ)) := by
  have h : sixtyDiv (some (some (JVal.num N))) = Except.ok (60 / (N : ℚ)) := by
    simp [sixtyDiv, hN]
  unfold stepDay
  rw [h]
  split
  · rename_i e heq
    exact absurd heq (by simp)
  · rename_i gap heq
    rw [Except.ok.injEq] at heq
    subst heq
    split <;> rfl

/-- With max_requests set to a non-zero integer and a non-error status, the
outcome of a day iteration is the cleaned iteration of the data field. -/
theorem stepDay_outcome_ok {N : Int} (hN : N ≠ 0) (c : CleanerLookup)
    (nr : Option ℚ) (day : Int) (env : DayEnv) (hstatus : env.status < 400) :
    (stepDay (some (some (JVal.num N))) c nr day env).outcome
      = match jsonGet env.body "data" with
        | Except.error e => Except.error e
        | Except.ok rows =>
          match pyIter rows with
          | Except.error e => Except.error e
          | Except.ok rs => cleanRows c rs := by
  have h : sixtyDiv (some (some (JVal.num N))) = Except.ok (60 / (N : ℚ)) := by
    simp [sixtyDiv, hN]
  unfold stepDay
  rw [h]
  split
  · rename_i e heq
    exact absurd heq (by simp)
  · rename_i gap heq
    rw [Except.ok.injEq] at heq
    subst heq
    rw [if_neg (by omega : ¬ 400 ≤ env.status)]

/-- The first iteration of a day loop pauses on the next_request value the
loop started from. -/
theorem runDays_head_paused (M : Option (Option JVal)) (c : CleanerLookup)
    (nr : Option ℚ) (items : List (Int × DayEnv)) :
    ∀ l ∈ (runDays M c nr items).head?, l.paused = nr := by
  cases items with
  | nil => simp [runDays]
  | cons hd tl =>
    obtain ⟨day, env⟩ := hd
    simp only [runDays]
    split <;> intro l hl <;> simp only [Option.mem_def, List.head?_cons,
      Option.some.injEq] at hl <;> subst hl <;> exact stepDay_paused M c nr day env

/-- Along a day loop each iteration pauses on exactly the next_request
recorded by the previous iteration. -/
theorem runDays_paused_chain (M : Option (Option JVal)) (c : CleanerLookup) :
    ∀ (items : List (Int × DayEnv)) (nr : Option ℚ),
      (runDays M c nr items).Chain' (fun a b => b.paused = a.nextReqAfter) := by
  intro items
  induction items with
  | nil => intro nr; simp [runDays]
  | cons hd tl ih =>
    intro nr
    obtain ⟨day, env⟩ := hd
    simp only [runDays]
    split
    · exact List.chain'_singleton _
    · rw [List.chain'_cons']
      exact ⟨fun b hb => runDays_head_paused M c _ tl b hb, ih _⟩

/-- With max_requests set to a non-zero integer, every log of a day loop
carries next_request = its own now observation + 60 / max_requests. -/
theorem runDays_nextReqAfter {N : Int} (hN : N ≠ 0) (c : CleanerLookup) :
    ∀ (items : List (Int × DayEnv)) (nr : Option ℚ),
      ∀ l ∈ runDays (some (some (JVal.num N))) c nr items,
        l.nextReqAfter = some (l.tNow + 60 / (N : ℚ)) := by
  intro items
  induction items with
  | nil => intro nr l hl; simp [runDays] at hl
  | cons hd tl ih =>
    intro nr l hl
    obtain ⟨day, env⟩ := hd
    simp only [runDays] at hl
    have hstep : ∀ x, x = stepDay (some (some (JVal.num N))) c nr day env →
        x.nextReqAfter = some (x.tNow + 60 / (N : ℚ)) := by
      intro x hx
      subst hx
      rw [stepDay_nextReqAfter_num hN, stepDay_tNow]
    revert hl
    split
    · intro hl
      rw [List.mem_singleton] at hl
      exact hstep l hl
    · intro hl
      rcases List.mem_cons.mp hl with h | h
      · exact hstep l h
      · exact ih _ l h

/-- A well-timed run is made of well-timed iterations. -/
theorem wellTimedSeq_mem :
    ∀ (logs : List DayLog), WellTimedSeq logs → ∀ l ∈ logs, WellTimedLog l := by
  intro logs
  induction logs with
  | nil => intro _ l hl; simp at hl
  | cons a rest ih =>
    cases rest with
    | nil =>
      intro hw l hl
      rw [List.mem_singleton] at hl
      subst hl
      exact hw
    | cons b rest2 =>
      intro hw l hl
      rcases List.mem_cons.mp hl with h | h
      · subst h
        exact hw.1
      · exact ih hw.2.2 l h

/-- In a well-timed run the clock is monotone from each now observation to
the following fetch. -/
theorem wellTimedSeq_chain :
    ∀ (logs : List DayLog), WellTimedSeq logs →
      logs.Chain' (fun a b => a.tNow ≤ b.tFetch) := by
  intro logs
  induction logs with
  | nil => intro _; simp
  | cons a rest ih =>
    cases rest with
    | nil => intro _; simp
    | cons b rest2 =>
      intro hw
      rw [List.chain'_cons]
      exact ⟨hw.2.1, ih hw.2.2⟩

/-- Two adjacent-pair facts and a per-element fact combine pointwise into a
third adjacent-pair fact. -/
theorem chain_transfer {α : Type} (P : α → Prop) {r1 r2 r3 : α → α → Prop} :
    ∀ (l : List α), (∀ x ∈ l, P x) → l.Chain' r1 → l.Chain' r2 →
      (∀ a b, P a → P b → r1 a b → r2 a b → r3 a b) → l.Chain' r3 := by
  intro l
  induction l with
  | nil => intro _ _ _ _; simp
  | cons a rest ih =>
    cases rest with
    | nil => intro _ _ _ _; simp
    | cons b rest2 =>
      intro hP h1 h2 himp
      rw [List.chain'_cons] at h1 h2 ⊢
      refine ⟨himp a b (hP a (by simp)) (hP b (by simp)) h1.1 h2.1, ?_⟩
      exact ih (fun x hx => hP x (List.mem_cons_of_mem a hx)) h1.2 h2.2 himp

/-- Adjacent-pair facts over a mapped range follow from the step fact. -/
theorem chain_map_range {β : Type} (g : Nat → β) (r : β → β → Prop) (n : Nat)
    (hstep : ∀ k, r (g k) (g (k + 1))) : ((List.range n).map g).Chain' r := by
  rw [List.chain'_map]
  cases n with
  | zero => simp
  | succ n =>
    rw [List.chain'_range_succ]
    intro m _
    exact hstep m

/-- C1: a rate-limit response with enabled = false leaves the max_requests
attribute unset (set_rate_limit returns early), and the first day iteration
then issues its request immediately — no pause event precedes it — but the
per-day step does not complete: recomputing the pacing deadline raises an
AttributeError because self.max_requests was never assigned.  This refutes
the claim that the iteration completes its per-day step without error; the
no-pacing-delay half does hold. -/
theorem c1_disabled_rate_limit_crash :
    set_rate_limit (HttpResponse.mk 200 (JVal.obj [("data",
        JVal.obj [("enabled", JVal.bool false), ("max_requests", JVal.num 100)])]))
      = Except.ok none
    ∧ interventionDetailsTrace (some "2020-01-01") none [] 18262
        (fun _ => DayEnv.mk 5 6 200 (JVal.obj [("data", JVal.arr [])]))
      = [Event.request 1577836800 5,
         Event.raised (PyErr.attributeError "max_requests")] :=
  ⟨rfl, rfl⟩

/-- C2 counterexample: a 2xx response whose JSON body has no data key makes
the day fetch raise a TypeError (the code iterates over the None returned
by response_data.get('data')); it does not yield the empty sequence. -/
theorem c2_missing_data_raises :
    (stepDay (some (some (JVal.num 60))) (CleanerLookup.fn id) none 0
        (DayEnv.mk 0 1 200 (JVal.obj [("page", JVal.num 1)]))).outcome
      = Except.error (PyErr.typeError "NoneType object is not iterable")
    ∧ (stepDay (some (some (JVal.num 60))) (CleanerLookup.fn id) none 0
        (DayEnv.mk 0 1 200 (JVal.obj [("page", JVal.num 1)]))).outcome
      ≠ Except.ok [] := by
  refine ⟨rfl, fun h => ?_⟩
  have h2 : (Except.error (PyErr.typeError "NoneType object is not iterable")
      : Except PyErr (List JVal)) = Except.ok [] := h
  exact Except.noConfusion h2

/-- C2 amended: for every day fetch whose response status is below 400 and
whose JSON body is an object without a data key, the fetch raises a
TypeError (iteration over None) instead of yielding an empty sequence. -/
theorem c2_amended_missing_data_typeerror (N : Int) (hN : N ≠ 0)
    (c : CleanerLookup) (nr : Option ℚ) (day : Int) (env : DayEnv)
    (fields : List (String × JVal)) (hstatus : env.status < 400)
    (hb : env.body = JVal.obj fields) (hnd : dictGet fields "data" = none) :
    (stepDay (some (some (JVal.num N))) c nr day env).outcome
      = Except.error (PyErr.typeError "NoneType object is not iterable") := by
  rw [stepDay_outcome_ok hN c nr day env hstatus]
  simp [jsonGet, hb, hnd, pyIter]

/-- Witness for the amended C2 at a concrete fetch. -/
theorem c2_amended_missing_data_typeerror_witness :
    (60 : Int) ≠ 0
    ∧ (DayEnv.mk 0 1 200 (JVal.obj [("page", JVal.num 1)])).status < 400
    ∧ (DayEnv.mk 0 1 200 (JVal.obj [("page", JVal.num 1)])).body
        = JVal.obj [("page", JVal.num 1)]
    ∧ dictGet [("page", JVal.num 1)] "data" = none
    ∧ (stepDay (some (some (JVal.num 60))) (CleanerLookup.fn id) none 5
        (DayEnv.mk 0 1 200 (JVal.obj [("page", JVal.num 1)]))).outcome
      = Except.error (PyErr.typeError "NoneType object is not iterable") :=
  ⟨by decide, by decide, rfl, rfl,
    c2_amended_missing_data_typeerror 60 (by decide) (CleanerLookup.fn id) none 5
      (DayEnv.mk 0 1 200 (JVal.obj [("page", JVal.num 1)]))
      [("page", JVal.num 1)] (by decide) rfl rfl⟩

/-- C3 counterexample: with no cleaner registered for intervention_details
the registry lookup yields the empty-dict default, and a day carrying one
raw record raises a TypeError when that default is applied — the record is
not passed through unmodified. -/
theorem c3_registry_miss_raises :
    cleanersGet [] "intervention_details" = CleanerLookup.emptyDict
    ∧ (stepDay (some (some (JVal.num 60))) (cleanersGet [] "intervention_details")
        none 0 (DayEnv.mk 0 1 200 (JVal.obj [("data", JVal.arr [JVal.num 7])]))).outcome
      = Except.error (PyErr.typeError "dict object is not callable")
    ∧ (stepDay (some (some (JVal.num 60))) (cleanersGet [] "intervention_details")
        none 0 (DayEnv.mk 0 1 200 (JVal.obj [("data", JVal.arr [JVal.num 7])]))).outcome
      ≠ Except.ok [JVal.num 7] := by
  refine ⟨rfl, rfl, fun h => ?_⟩
  have h2 : (Except.error (PyErr.typeError "dict object is not callable")
      : Except PyErr (List JVal)) = Except.ok [JVal.num 7] := h
  exact Except.noConfusion h2

/-- C3 amended: on a registry miss the lookup returns the empty-dict
default, which is not callable: a day fetch whose data array is non-empty
raises a TypeError at the first record and yields nothing, and only a day
with zero records completes (vacuously unmodified). -/
theorem c3_amended_registry_miss (cleaners : List (String × (JVal → JVal)))
    (hmiss : cleaners.find? (fun p => p.1 == "intervention_details") = none)
    (N : Int) (hN : N ≠ 0) (nr : Option ℚ) (day : Int) (env : DayEnv)
    (fields : List (String × JVal)) (rows : List JVal)
    (hstatus : env.status < 400) (hb : env.body = JVal.obj fields)
    (hd : dictGet fields "data" = some (JVal.arr rows)) :
    (stepDay (some (some (JVal.num N)))
        (cleanersGet cleaners "intervention_details") nr day env).outcome
      = if rows.isEmpty then Except.ok []
        else Except.error (PyErr.typeError "dict object is not callable") := by
  have hcl : cleanersGet cleaners "intervention_details"
      = CleanerLookup.emptyDict := by
    simp [cleanersGet, hmiss]
  rw [stepDay_outcome_ok hN _ nr day env hstatus, hcl]
  cases rows with
  | nil => simp [jsonGet, hb, hd, pyIter, cleanRows]
  | cons r rs => simp [jsonGet, hb, hd, pyIter, cleanRows]

/-- Witness for the amended C3 at a concrete fetch with one raw record. -/
theorem c3_amended_registry_miss_witness :
    List.find? (fun p => p.1 == "intervention_details")
        ([] : List (String × (JVal → JVal))) = none
    ∧ (60 : Int) ≠ 0
    ∧ (DayEnv.mk 0 1 200 (JVal.obj [("data", JVal.arr [JVal.num 7])])).status < 400
    ∧ (DayEnv.mk 0 1 200 (JVal.obj [("data", JVal.arr [JVal.num 7])])).body
        = JVal.obj [("data", JVal.arr [JVal.num 7])]
    ∧ dictGet [("data", JVal.arr [JVal.num 7])] "data" = some (JVal.arr [JVal.num 7])
    ∧ (stepDay (some (some (JVal.num 60)))
        (cleanersGet [] "intervention_details") none 3
        (DayEnv.mk 0 1 200 (JVal.obj [("data", JVal.arr [JVal.num 7])]))).outcome
      = Except.error (PyErr.typeError "dict object is not callable") :=
  ⟨rfl, by decide, by decide, rfl, rfl,
    c3_amended_registry_miss [] rfl 60 (by decide) none 3
      (DayEnv.mk 0 1 200 (JVal.obj [("data", JVal.arr [JVal.num 7])]))
      [("data", JVal.arr [JVal.num 7])] [JVal.num 7] (by decide) rfl rfl⟩

/-- C6 counterexample: a 2xx login response whose body carries no sessionid
completes without any error and silently stores a None token — the claimed
AuthenticationError for a missing session token never happens. -/
theorem c6_missing_token_no_error :
    login (HttpResponse.mk 200 (JVal.obj [("data", JVal.obj [])])) = Except.ok none
    ∧ ∀ e, login (HttpResponse.mk 200 (JVal.obj [("data", JVal.obj [])]))
        ≠ Except.error e := by
  refine ⟨rfl, fun e h => ?_⟩
  have h2 : (Except.ok (none : Option JVal) : Except PyErr (Option JVal))
      = Except.error e := h
  exact Except.noConfusion h2

/-- C6 amended: login fails exactly on an HTTP error status (4xx or 5xx);
on any other status it stores cookies sessionid := data.get('sessionid') —
None when the token is absent — and never raises for a missing token. -/
theorem c6_amended_login (resp : HttpResponse)
    (fields dataFields : List (String × JVal))
    (hb : resp.body = JVal.obj fields)
    (hd : (dictGet fields "data").getD (JVal.obj []) = JVal.obj dataFields) :
    (400 ≤ resp.status →
      login resp = Except.error (PyErr.httpStatusError resp.status))
    ∧ (resp.status < 400 →
      login resp = Except.ok (dictGet dataFields "sessionid")) := by
  constructor
  · intro h4
    simp [login, raise_for_status, if_pos h4]
  · intro h4
    simp [login, raise_for_status, if_neg (by omega : ¬ 400 ≤ resp.status),
      jsonGetD, hb, hd]

/-- Witness for the amended C6: a 401 login fails, a 200 login with a token
stores it. -/
theorem c6_amended_login_witness :
    (HttpResponse.mk 401 (JVal.obj [])).body = JVal.obj []
    ∧ 400 ≤ (HttpResponse.mk 401 (JVal.obj [])).status
    ∧ login (HttpResponse.mk 401 (JVal.obj []))
        = Except.error (PyErr.httpStatusError 401)
    ∧ (HttpResponse.mk 200 (JVal.obj [("data",
        JVal.obj [("sessionid", JVal.str "abc")])])).status < 400
    ∧ login (HttpResponse.mk 200 (JVal.obj [("data",
        JVal.obj [("sessionid", JVal.str "abc")])]))
        = Except.ok (some (JVal.str "abc")) :=
  ⟨rfl, by decide,
    (c6_amended_login (HttpResponse.mk 401 (JVal.obj [])) [] [] rfl rfl).1 (by decide),
    by decide,
    (c6_amended_login (HttpResponse.mk 200 (JVal.obj [("data",
        JVal.obj [("sessionid", JVal.str "abc")])]))
      [("data", JVal.obj [("sessionid", JVal.str "abc")])]
      [("sessionid", JVal.str "abc")] rfl rfl).2 (by decide)⟩

/-- C4 counterexample: a run whose config carries start_date as the empty
string issues the login request and the rate-limit request before failing:
two network requests precede the ValueError, refuting the claim that the
failure happens before any network request. -/
theorem c4_empty_start_date_after_requests :
    tapRun [("username", "u"), ("password", "p"), ("start_date", "")]
        (HttpResponse.mk 200 (JVal.obj [("data",
          JVal.obj [("sessionid", JVal.str "abc")])]))
        (HttpResponse.mk 200 (JVal.obj [("data",
          JVal.obj [("enabled", JVal.bool true), ("max_requests", JVal.num 60)])]))
        [] 18262 (fun _ => DayEnv.mk 0 0 200 JVal.null)
      = [Event.loginRequest, Event.rateLimitRequest,
         Event.raised (PyErr.valueError "The parameter start_date is required.")]
    ∧ countRequests [Event.loginRequest, Event.rateLimitRequest,
         Event.raised (PyErr.valueError "The parameter start_date is required.")] = 2 :=
  ⟨rfl, rfl⟩

/-- C4 amended: an absent start_date key fails during argument parsing
before any network request, but an empty start_date passes the key check,
the constructor issues the login and rate-limit requests, and only then does
the run fail with the ValueError raised at the first consumption of
intervention_details. -/
theorem c4_amended_config_failure (config : List (String × String))
    (loginResp rateResp : HttpResponse)
    (cleaners : List (String × (JVal → JVal)))
    (nowDays : Int) (envs : Nat → DayEnv) :
    (configGet config "start_date" = none →
      tapRun config loginResp rateResp cleaners nowDays envs
        = [Event.raised (PyErr.configError "Config is missing required keys")])
    ∧ (∀ cookie maxRequests,
        parse_args config = Except.ok () →
        configGet config "start_date" = some "" →
        login loginResp = Except.ok cookie →
        set_rate_limit rateResp = Except.ok maxRequests →
        tapRun config loginResp rateResp cleaners nowDays envs
          = [Event.loginRequest, Event.rateLimitRequest,
             Event.raised (PyErr.valueError "The parameter start_date is required.")]) := by
  constructor
  · intro h
    have hpa : parse_args config
        = Except.error (PyErr.configError "Config is missing required keys") := by
      simp [parse_args, REQUIRED_CONFIG_KEYS, h]
    simp [tapRun, hpa]
  · intro cookie maxRequests hpa hsd hlogin hrate
    simp [tapRun, hpa, hlogin, hrate, hsd, interventionDetailsTrace]

/-- Witness for the amended C4: both config shapes at concrete values. -/
theorem c4_amended_config_failure_witness :
    configGet [("username", "u"), ("password", "p")] "start_date" = none
    ∧ tapRun [("username", "u"), ("password", "p")]
        (HttpResponse.mk 200 (JVal.obj []))
        (HttpResponse.mk 200 (JVal.obj []))
        [] 0 (fun _ => DayEnv.mk 0 0 200 JVal.null)
      = [Event.raised (PyErr.configError "Config is missing required keys")]
    ∧ parse_args [("username", "u"), ("password", "p"), ("start_date", "")]
        = Except.ok ()
    ∧ configGet [("username", "u"), ("password", "p"), ("start_date", "")]
        "start_date" = some ""
    ∧ login (HttpResponse.mk 200 (JVal.obj [("data",
        JVal.obj [("sessionid", JVal.str "abc")])]))
        = Except.ok (some (JVal.str "abc"))
    ∧ set_rate_limit (HttpResponse.mk 200 (JVal.obj [("data",
        JVal.obj [("enabled", JVal.bool true), ("max_requests", JVal.num 60)])]))
        = Except.ok (some (some (JVal.num 60)))
    ∧ tapRun [("username", "u"), ("password", "p"), ("start_date", "")]
        (HttpResponse.mk 200 (JVal.obj [("data",
          JVal.obj [("sessionid", JVal.str "abc")])]))
        (HttpResponse.mk 200 (JVal.obj [("data",
          JVal.obj [("enabled", JVal.bool true), ("max_requests", JVal.num 60)])]))
        [] 0 (fun _ => DayEnv.mk 0 0 200 JVal.null)
      = [Event.loginRequest, Event.rateLimitRequest,
         Event.raised (PyErr.valueError "The parameter start_date is required.")] :=
  ⟨rfl,
    (c4_amended_config_failure [("username", "u"), ("password", "p")]
      (HttpResponse.mk 200 (JVal.obj [])) (HttpResponse.mk 200 (JVal.obj []))
      [] 0 (fun _ => DayEnv.mk 0 0 200 JVal.null)).1 rfl,
    rfl, rfl, rfl, rfl,
    (c4_amended_config_failure
      [("username", "u"), ("password", "p"), ("start_date", "")]
      (HttpResponse.mk 200 (JVal.obj [("data",
        JVal.obj [("sessionid", JVal.str "abc")])]))
      (HttpResponse.mk 200 (JVal.obj [("data",
        JVal.obj [("enabled", JVal.bool true), ("max_requests", JVal.num 60)])]))
      [] 0 (fun _ => DayEnv.mk 0 0 200 JVal.null)).2
      (some (JVal.str "abc")) (some (some (JVal.num 60))) rfl rfl rfl rfl⟩

/-- C5: for every start date that parses, is a valid calendar date and lies
on or before the current day, the enumerated day windows have length
(today - start).days + 1, are strictly ascending, each exactly 86400 seconds
wide, and contiguous: each window ends where the next one starts. -/
theorem c5_day_windows (s : String) (y m d nowDays : Int)
    (hp : parseStartDate s = Except.ok (y, m, d))
    (hv : dateValid y m d = true)
    (hle : daysFromCivil y m d ≤ nowDays) :
    ∃ days, start_days_till_now s nowDays = Except.ok days ∧
      days.length = (nowDays - daysFromCivil y m d).toNat + 1 ∧
      (days.map dayWindow).Chain' (fun w1 w2 => w1.1 < w2.1) ∧
      (∀ w ∈ days.map dayWindow, w.2 - w.1 = 86400) ∧
      (days.map dayWindow).Chain' (fun w1 w2 => w1.2 = w2.1) := by
  have hn : (nowDays - daysFromCivil y m d + 1).toNat
      = (nowDays - daysFromCivil y m d).toNat + 1 := by omega
  have hres : start_days_till_now s nowDays
      = Except.ok ((List.range ((nowDays - daysFromCivil y m d).toNat + 1)).map
          (fun (k : Nat) => (daysFromCivil y m d + (k : Int)) * 86400)) := by
    simp only [start_days_till_now, hp, hv, if_true, hle, if_pos, hn]
  refine ⟨_, hres, ?_, ?_, ?_, ?_⟩
  · simp
  · rw [List.map_map]
    refine chain_map_range _ _ _ (fun k => ?_)
    simp only [Function.comp_apply, dayWindow]
    push_cast
    nlinarith [sq_nonneg (1 : Int)]
  · intro w hw
    rw [List.map_map, List.mem_map] at hw
    obtain ⟨k, hk, rfl⟩ := hw
    simp [dayWindow]
  · rw [List.map_map]
    refine chain_map_range _ _ _ (fun k => ?_)
    simp only [Function.comp_apply, dayWindow]
    push_cast
    ring

/-- Witness for C5: start date 2020-01-01 with now on day 18264
(2020-01-03), giving the three contiguous windows of the specification
scenario. -/
theorem c5_day_windows_witness :
    parseStartDate "2020-01-01" = Except.ok (2020, 1, 1)
    ∧ dateValid 2020 1 1 = true
    ∧ daysFromCivil 2020 1 1 ≤ 18264
    ∧ (∃ days, start_days_till_now "2020-01-01" 18264 = Except.ok days ∧
        days.length = ((18264 : Int) - daysFromCivil 2020 1 1).toNat + 1 ∧
        (days.map dayWindow).Chain' (fun w1 w2 => w1.1 < w2.1) ∧
        (∀ w ∈ days.map dayWindow, w.2 - w.1 = 86400) ∧
        (days.map dayWindow).Chain' (fun w1 w2 => w1.2 = w2.1)) :=
  ⟨rfl, by decide, by decide,
    c5_day_windows "2020-01-01" 2020 1 1 18264 rfl (by decide) (by decide)⟩

/-- C7: with max_requests set to a non-zero integer, every day iteration —
including one whose response status is an error and whose processing then
raises — records next_request = now + 60 / max_requests, computed before
the outcome is acted on. -/
theorem c7_next_request_recomputed (N : Int) (hN : N ≠ 0)
    (cleaner : CleanerLookup) (items : List (Int × DayEnv)) :
    ∀ l ∈ interventionLogs (some (some (JVal.num N))) cleaner items,
      l.nextReqAfter = some (l.tNow + 60 / (N : ℚ)) :=
  runDays_nextReqAfter hN cleaner items none

/-- Witness for C7 at a concrete run whose only fetch gets a 500 response. -/
theorem c7_next_request_recomputed_witness :
    (60 : Int) ≠ 0
    ∧ ∀ l ∈ interventionLogs (some (some (JVal.num 60))) (CleanerLookup.fn id)
        [(0, DayEnv.mk 2 3 500 JVal.null)],
        l.nextReqAfter = some (l.tNow + 60 / ((60 : Int) : ℚ)) :=
  ⟨by decide, c7_next_request_recomputed 60 (by decide) (CleanerLookup.fn id)
    [(0, DayEnv.mk 2 3 500 JVal.null)]⟩

/-- C8: with rate limiting enabled (max_requests a positive integer) and a
well-timed environment, the next-allowed-request values recorded by
consecutive iterations are monotonically non-decreasing. -/
theorem c8_next_request_monotone (N : Int) (hN : 0 < N)
    (cleaner : CleanerLookup) (items : List (Int × DayEnv))
    (hw : WellTimedSeq (interventionLogs (some (some (JVal.num N))) cleaner items)) :
    (interventionLogs (some (some (JVal.num N))) cleaner items).Chain'
      (fun a b => ∃ x q, a.nextReqAfter = some x ∧ b.nextReqAfter = some q ∧ x ≤ q) := by
  have hP : ∀ l ∈ interventionLogs (some (some (JVal.num N))) cleaner items,
      l.nextReqAfter = some (l.tNow + 60 / (N : ℚ)) ∧ WellTimedLog l :=
    fun l hl =>
      ⟨runDays_nextReqAfter (show N ≠ 0 by omega) cleaner items none l hl,
        wellTimedSeq_mem _ hw l hl⟩
  have hchain := wellTimedSeq_chain _ hw
  refine chain_transfer
    (fun l => l.nextReqAfter = some (l.tNow + 60 / (N : ℚ)) ∧ WellTimedLog l)
    _ hP hchain hchain ?_
  rintro a b ⟨ha, hwa⟩ ⟨hb, hwb⟩ hab _
  refine ⟨a.tNow + 60 / (N : ℚ), b.tNow + 60 / (N : ℚ), ha, hb, ?_⟩
  have h1 : b.tFetch ≤ b.tNow := hwb.2
  linarith

/-- Witness for C8 at a concrete well-timed two-day run. -/
theorem c8_next_request_monotone_witness :
    (0 : Int) < 60
    ∧ WellTimedSeq (interventionLogs (some (some (JVal.num 60)))
        (CleanerLookup.fn id)
        [(0, DayEnv.mk 0 0 200 (JVal.obj [("data", JVal.arr [])])),
         (86400, DayEnv.mk 1 1 200 (JVal.obj [("data", JVal.arr [])]))])
    ∧ (interventionLogs (some (some (JVal.num 60))) (CleanerLookup.fn id)
        [(0, DayEnv.mk 0 0 200 (JVal.obj [("data", JVal.arr [])])),
         (86400, DayEnv.mk 1 1 200 (JVal.obj [("data", JVal.arr [])]))]).Chain'
        (fun a b => ∃ x q, a.nextReqAfter = some x ∧ b.nextReqAfter = some q
          ∧ x ≤ q) := by
  have hw : WellTimedSeq (interventionLogs (some (some (JVal.num 60)))
      (CleanerLookup.fn id)
      [(0, DayEnv.mk 0 0 200 (JVal.obj [("data", JVal.arr [])])),
       (86400, DayEnv.mk 1 1 200 (JVal.obj [("data", JVal.arr [])]))]) := by
    have hlogs : interventionLogs (some (some (JVal.num 60)))
        (CleanerLookup.fn id)
        [(0, DayEnv.mk 0 0 200 (JVal.obj [("data", JVal.arr [])])),
         (86400, DayEnv.mk 1 1 200 (JVal.obj [("data", JVal.arr [])]))]
        = [DayLog.mk 0 none 0 0 (some ((0 : ℚ) + 60 / 60)) (Except.ok []),
           DayLog.mk 86400 (some ((0 : ℚ) + 60 / 60)) 1 1
             (some ((1 : ℚ) + 60 / 60)) (Except.ok [])] := rfl
    rw [hlogs]
    refine ⟨⟨by simp, by norm_num⟩, by norm_num, ⟨?_, by norm_num⟩⟩
    intro t ht
    simp at ht
    subst ht
    norm_num
  exact ⟨by decide, hw,
    c8_next_request_monotone 60 (by decide) (CleanerLookup.fn id) _ hw⟩

/-- C9: with rate limiting enabled (max_requests a positive integer N) and
a well-timed environment, each iteration pauses on exactly the
next-allowed-request instant recorded by the previous one, and consecutive
fetches are separated by at least 60 / N seconds. -/
theorem c9_fetch_spacing (N : Int) (hN : 0 < N)
    (cleaner : CleanerLookup) (items : List (Int × DayEnv))
    (hw : WellTimedSeq (interventionLogs (some (some (JVal.num N))) cleaner items)) :
    (interventionLogs (some (some (JVal.num N))) cleaner items).Chain'
      (fun a b => b.paused = a.nextReqAfter
        ∧ a.tFetch + 60 / (N : ℚ) ≤ b.tFetch) := by
  have hP : ∀ l ∈ interventionLogs (some (some (JVal.num N))) cleaner items,
      l.nextReqAfter = some (l.tNow + 60 / (N : ℚ)) ∧ WellTimedLog l :=
    fun l hl =>
      ⟨runDays_nextReqAfter (show N ≠ 0 by omega) cleaner items none l hl,
        wellTimedSeq_mem _ hw l hl⟩
  have hpause := runDays_paused_chain (some (some (JVal.num N))) cleaner items none
  have hchain := wellTimedSeq_chain _ hw
  refine chain_transfer
    (fun l => l.nextReqAfter = some (l.tNow + 60 / (N : ℚ)) ∧ WellTimedLog l)
    _ hP hpause hchain ?_
  rintro a b ⟨ha, hwa⟩ ⟨hb, hwb⟩ hab hab2
  refine ⟨hab, ?_⟩
  have h1 : a.tNow + 60 / (N : ℚ) ≤ b.tFetch :=
    hwb.1 _ (by rw [Option.mem_def, hab, ha])
  have h2 : a.tFetch ≤ a.tNow := hwa.2
  linarith

/-- Witness for C9 at a concrete well-timed two-day run. -/
theorem c9_fetch_spacing_witness :
    (0 : Int) < 60
    ∧ WellTimedSeq (interventionLogs (some (some (JVal.num 60)))
        (CleanerLookup.fn id)
        [(0, DayEnv.mk 0 0 200 (JVal.obj [("data", JVal.arr [])])),
         (86400, DayEnv.mk 2 2 200 (JVal.obj [("data", JVal.arr [])]))])
    ∧ (interventionLogs (some (some (JVal.num 60))) (CleanerLookup.fn id)
        [(0, DayEnv.mk 0 0 200 (JVal.obj [("data", JVal.arr [])])),
         (86400, DayEnv.mk 2 2 200 (JVal.obj [("data", JVal.arr [])]))]).Chain'
        (fun a b => b.paused = a.nextReqAfter
          ∧ a.tFetch + 60 / ((60 : Int) : ℚ) ≤ b.tFetch) := by
  have hw : WellTimedSeq (interventionLogs (some (some (JVal.num 60)))
      (CleanerLookup.fn id)
      [(0, DayEnv.mk 0 0 200 (JVal.obj [("data", JVal.arr [])])),
       (86400, DayEnv.mk 2 2 200 (JVal.obj [("data", JVal.arr [])]))]) := by
    have hlogs : interventionLogs (some (some (JVal.num 60)))
        (CleanerLookup.fn id)
        [(0, DayEnv.mk 0 0 200 (JVal.obj [("data", JVal.arr [])])),
         (86400, DayEnv.mk 2 2 200 (JVal.obj [("data", JVal.arr [])]))]
        = [DayLog.mk 0 none 0 0 (some ((0 : ℚ) + 60 / 60)) (Except.ok []),
           DayLog.mk 86400 (some ((0 : ℚ) + 60 / 60)) 2 2
             (some ((2 : ℚ) + 60 / 60)) (Except.ok [])] := rfl
    rw [hlogs]
    refine ⟨⟨by simp, by norm_num⟩, by norm_num, ⟨?_, by norm_num⟩⟩
    intro t ht
    simp at ht
    subst ht
    norm_num
  exact ⟨by decide, hw,
    c9_fetch_spacing 60 (by decide) (CleanerLookup.fn id) _ hw⟩

/-- C10: intervention_details is a lazy generator: constructing it observes
no event at all (no validation, no request), and on a missing or empty
start_date the ValueError — and nothing else, in particular no network
request — is observed exactly when the caller asks for the first element. -/
theorem c10_lazy_generator (startDateArg : Option String)
    (maxRequests : Option (Option JVal))
    (cleaners : List (String × (JVal → JVal)))
    (nowDays : Int) (envs : Nat → DayEnv) :
    observe 0 (interventionDetailsTrace startDateArg maxRequests cleaners
      nowDays envs) = []
    ∧ ((startDateArg = none ∨ startDateArg = some "") →
        observe 1 (interventionDetailsTrace startDateArg maxRequests cleaners
          nowDays envs)
          = [Event.raised (PyErr.valueError "The parameter start_date is required.")]
        ∧ countRequests (interventionDetailsTrace startDateArg maxRequests
            cleaners nowDays envs) = 0) := by
  refine ⟨observe_zero _, ?_⟩
  rintro (h | h) <;> subst h <;> exact ⟨rfl, rfl⟩

/-- Witness for C10 at a concrete call with the start_date keyword absent. -/
theorem c10_lazy_generator_witness :
    observe 0 (interventionDetailsTrace none none [] 0
      (fun _ => DayEnv.mk 0 0 200 JVal.null)) = []
    ∧ observe 1 (interventionDetailsTrace none none [] 0
        (fun _ => DayEnv.mk 0 0 200 JVal.null))
      = [Event.raised (PyErr.valueError "The parameter start_date is required.")]
    ∧ countRequests (interventionDetailsTrace none none [] 0
        (fun _ => DayEnv.mk 0 0 200 JVal.null)) = 0 :=
  ⟨(c10_lazy_generator none none [] 0 (fun _ => DayEnv.mk 0 0 200 JVal.null)).1,
    ((c10_lazy_generator none none [] 0
      (fun _ => DayEnv.mk 0 0 200 JVal.null)).2 (Or.inl rfl)).1,
    ((c10_lazy_generator none none [] 0
      (fun _ => DayEnv.mk 0 0 200 JVal.null)).2 (Or.inl rfl)).2⟩

end TapCoosto
